import Mathlib

/-!
# Verification of the fullstack-todo backend

A shallow embedding of the Express REST API server (the `/todos` CRUD
handlers) backed by a MySQL `todos` table and an optional Redis cache
holding the serialized todo list under the single key `todos`.

Modelling decisions, all read off the source:

* A database row of the `todos` table carries `id`, `title`, `description`,
  `completed`, `created_at`, `updated_at`; timestamps are modelled as `Nat`.
* The MySQL pool is modelled by the row list, the auto-increment counter,
  and a reachability flag `dbUp`; `db.execute` raises (is `Except.error`)
  exactly when the store is unreachable.
* The Redis client is `Option RedisClient`: `none` models the handler-level
  `redisClient?.…` optional chaining when the client variable is undefined
  (every cache call silently evaluates to `undefined`); `some c` models a
  defined client, which either serves operations (`RedisMode.live`) or
  raises on every operation (`RedisMode.failing`, e.g. a closed
  connection).  A raised cache error propagates to each handler's
  `catch` block, exactly as the `await` calls inside the `try` do.
* Response bodies are modelled as JSON values so that the exact field set
  a handler constructs is visible.
* The two clocks are explicit: `dbNow` is the MySQL `CURRENT_TIMESTAMP`
  used for stored rows, `serverNow` is the Node process clock
  (`new Date()`) used in the create response body.
-/

/-- One row of the `todos` table (schema.sql lines 2-9). -/
structure Row where
  id : Nat
  title : String
  description : String
  completed : Bool
  created_at : Nat
  updated_at : Nat
deriving Repr, DecidableEq

/-- JSON values, used for response bodies and request body fields. -/
inductive Json where
  | jstr (s : String)
  | jnum (n : Nat)
  | jbool (b : Bool)
  | jnull
  | jobj (fields : List (String × Json))
  | jarr (xs : List Json)
deriving Repr

/-- The keys of a JSON object (empty for non-objects). -/
def Json.objKeys : Json → List String
  | .jobj fs => fs.map Prod.fst
  | _ => []

/-- Serialization of a stored row as the server returns it from
`SELECT id, title, description, completed, created_at, updated_at`. -/
def rowToJson (r : Row) : Json :=
  .jobj [("id", .jnum r.id), ("title", .jstr r.title),
         ("description", .jstr r.description), ("completed", .jbool r.completed),
         ("created_at", .jnum r.created_at), ("updated_at", .jnum r.updated_at)]

/-- An HTTP response: status code and JSON body. -/
structure Response where
  status : Nat
  body : Json
deriving Repr

/-- The `{ error: msg }` bodies the handlers build. -/
def errJson (msg : String) : Json := .jobj [("error", .jstr msg)]

/-- The catch-all `res.status(500).json({ error: 'Internal server error' })`. -/
def serverError : Response := ⟨500, errJson "Internal server error"⟩

/-- A defined Redis client is either serving (`live`) or raising on every
operation (`failing`), e.g. when the connection is closed. -/
inductive RedisMode where
  | live
  | failing
deriving Repr, DecidableEq

/-- A defined Redis client: its mode and the value currently stored under
the key `todos` (`none` when the key is absent or expired). -/
structure RedisClient where
  mode : RedisMode
  entry : Option (List Row)
deriving Repr, DecidableEq

/-- `redisClient?.get('todos')`.  An undefined client yields `undefined`
(no cached value); a failing client raises; a live client returns the
entry (`null`, i.e. `none`, when the key is absent). -/
def cacheGet : Option RedisClient → Except Unit (Option (List Row))
  | none => .ok none
  | some c =>
    match c.mode with
    | .live => .ok c.entry
    | .failing => .error ()

/-- `redisClient?.setEx('todos', 300, JSON.stringify(rows))`.  Returns the
updated client state.  The 300-second TTL is real time and is modelled
only through `entry` possibly being `none` on a later read. -/
def cacheSetEx (rc : Option RedisClient) (v : List Row) :
    Except Unit (Option RedisClient) :=
  match rc with
  | none => .ok none
  | some c =>
    match c.mode with
    | .live => .ok (some { c with entry := some v })
    | .failing => .error ()

/-- `redisClient?.del('todos')`.  Returns the updated client state. -/
def cacheDel (rc : Option RedisClient) : Except Unit (Option RedisClient) :=
  match rc with
  | none => .ok none
  | some c =>
    match c.mode with
    | .live => .ok (some { c with entry := none })
    | .failing => .error ()

/-- The cached value under the key `todos`, seen through an optional
client. -/
def cacheEntry : Option RedisClient → Option (List Row)
  | none => none
  | some c => c.entry

/-- `true` when every cache operation completes without raising: the
client is undefined (optional chaining short-circuits) or live. -/
def redisOk : Option RedisClient → Bool
  | none => true
  | some c => c.mode == .live

/-- The full server state a request handler sees: the `todos` table rows,
the auto-increment counter, reachability of MySQL, and the Redis client. -/
structure ServerState where
  rows : List Row
  nextId : Nat
  dbUp : Bool
  redis : Option RedisClient
deriving Repr, DecidableEq

/-- The order of `ORDER BY created_at DESC`: most recent first. -/
def createdDesc (x y : Row) : Prop := y.created_at ≤ x.created_at

instance : DecidableRel createdDesc := fun x y => Nat.decLe y.created_at x.created_at

instance : IsTotal Row createdDesc :=
  ⟨fun a b => Nat.le_total b.created_at a.created_at⟩

instance : IsTrans Row createdDesc :=
  ⟨fun _ _ _ h h' => Nat.le_trans h' h⟩

/-- The result set of
`SELECT … FROM todos ORDER BY created_at DESC`. -/
def sortByCreatedDesc (l : List Row) : List Row :=
  List.insertionSort createdDesc l

/-- The character class ECMAScript `String.prototype.trim` strips:
WhiteSpace (tab, VT, FF, space, NBSP, ZWNBSP/U+FEFF and every Unicode
space separator Zs: U+1680, U+2000-U+200A, U+202F, U+205F, U+3000) and
LineTerminator (LF, CR, U+2028, U+2029) code points. -/
def isJsWhitespace (c : Char) : Bool :=
  c = ' ' || c = '\t' || c = '\n' || c = '\r' ||
  c = '\u000b' || c = '\u000c' || c = '\u00a0' || c = '\u1680' ||
  (0x2000 ≤ c.toNat && c.toNat ≤ 0x200a) ||
  c = '\u202f' || c = '\u205f' || c = '\u3000' ||
  c = '\u2028' || c = '\u2029' || c = '\ufeff'

/-- JavaScript `s.trim()`: strip leading and trailing whitespace. -/
def jsTrim (s : String) : String :=
  ⟨((s.data.dropWhile isJsWhitespace).reverse.dropWhile isJsWhitespace).reverse⟩

/-- A request-body field of the create endpoint: absent from the JSON
body, a string, or an explicit JSON `null`. -/
inductive JsonField where
  | absent
  | str (s : String)
  | null
deriving Repr, DecidableEq

/-- The JSON body of `POST /todos`. -/
structure CreateBody where
  title : JsonField
  description : JsonField
deriving Repr, DecidableEq

/-- The JSON body of `PUT /todos/:id` (full replacement, as the client
sends it). -/
structure UpdateBody where
  title : String
  description : String
  completed : Bool
deriving Repr, DecidableEq

/-- `GET /todos` (server lines 106-127): try the cache key; on a hit
return the parsed value; on a miss query MySQL for the full ordered set,
repopulate the cache, and return the rows; any raised error (cache or
store) is caught and answered with the generic 500. -/
def listTodos (s : ServerState) : Response × ServerState :=
  match cacheGet s.redis with
  | .error _ => (serverError, s)
  | .ok (some cached) => (⟨200, .jarr (cached.map rowToJson)⟩, s)
  | .ok none =>
    if s.dbUp then
      let rows := sortByCreatedDesc s.rows
      match cacheSetEx s.redis rows with
      | .error _ => (serverError, s)
      | .ok redis' => (⟨200, .jarr (rows.map rowToJson)⟩, { s with redis := redis' })
    else (serverError, s)

/-- `POST /todos` (server lines 130-157): destructure
`{ title, description = '' }` (the default applies only to an absent
field), reject a falsy or whitespace-only title with 400, evaluate
`title.trim()` and `description.trim()` (a non-string description raises
a TypeError caught as 500, before the store is contacted), insert the
row, delete the cache key, and answer 201 with a body built in the
handler from the trimmed inputs and `new Date()`. -/
def createTodo (body : CreateBody) (dbNow serverNow : Nat) (s : ServerState) :
    Response × ServerState :=
  match body.title with
  | .str t =>
    if jsTrim t = "" then (⟨400, errJson "Title is required"⟩, s)
    else
      match (match body.description with | .absent => JsonField.str "" | d => d) with
      | .str d =>
        if s.dbUp then
          let newRow : Row :=
            ⟨s.nextId, jsTrim t, jsTrim d, false, dbNow, dbNow⟩
          let s1 : ServerState :=
            { s with rows := s.rows ++ [newRow], nextId := s.nextId + 1 }
          match cacheDel s1.redis with
          | .error _ => (serverError, s1)
          | .ok redis' =>
            (⟨201, .jobj [("id", .jnum s.nextId), ("title", .jstr (jsTrim t)),
                          ("description", .jstr (jsTrim d)), ("completed", .jbool false),
                          ("created_at", .jnum serverNow)]⟩,
             { s1 with redis := redis' })
        else (serverError, s)
      | _ => (serverError, s)
  | _ => (⟨400, errJson "Title is required"⟩, s)

/-- The affected-row count MySQL reports for
`UPDATE … WHERE id = ?` / `DELETE FROM todos WHERE id = ?`. -/
def affectedRows (id : Nat) (rows : List Row) : Nat :=
  (rows.filter (fun r => r.id == id)).length

/-- `PUT /todos/:id` (server lines 160-182): update the matching row with
the incoming title, description and completed exactly as received (no
trimming, no validation) and refresh `updated_at`; a zero affected-row
count from the UPDATE itself answers 404; otherwise delete the cache key
and answer 200. -/
def updateTodo (id : Nat) (body : UpdateBody) (dbNow : Nat) (s : ServerState) :
    Response × ServerState :=
  if s.dbUp then
    let rows' := s.rows.map (fun r =>
      if r.id == id then
        { r with title := body.title, description := body.description,
                 completed := body.completed, updated_at := dbNow }
      else r)
    if affectedRows id s.rows = 0 then (⟨404, errJson "Todo not found"⟩, s)
    else
      let s1 : ServerState := { s with rows := rows' }
      match cacheDel s1.redis with
      | .error _ => (serverError, s1)
      | .ok redis' =>
        (⟨200, .jobj [("message", .jstr "Todo updated successfully")]⟩,
         { s1 with redis := redis' })
  else (serverError, s)

/-- `DELETE /todos/:id` (server lines 185-203): delete the matching row; a
zero affected-row count from the DELETE itself answers 404; otherwise
delete the cache key and answer 200. -/
def deleteTodo (id : Nat) (s : ServerState) : Response × ServerState :=
  if s.dbUp then
    if affectedRows id s.rows = 0 then (⟨404, errJson "Todo not found"⟩, s)
    else
      let s1 : ServerState := { s with rows := s.rows.filter (fun r => r.id != id) }
      match cacheDel s1.redis with
      | .error _ => (serverError, s1)
      | .ok redis' =>
        (⟨200, .jobj [("message", .jstr "Todo deleted successfully")]⟩,
         { s1 with redis := redis' })
  else (serverError, s)

/-- One mutating request, for properties quantified over all three write
endpoints. -/
inductive Mutation where
  | create (body : CreateBody) (dbNow serverNow : Nat)
  | update (id : Nat) (body : UpdateBody) (dbNow : Nat)
  | del (id : Nat)
deriving Repr, DecidableEq

/-- Dispatch of a mutating request to its handler. -/
def applyMutation : Mutation → ServerState → Response × ServerState
  | .create body dbNow serverNow, s => createTodo body dbNow serverNow s
  | .update id body dbNow, s => updateTodo id body dbNow s
  | .del id, s => deleteTodo id s

/-- The normalized description the create handler stores and echoes:
`description.trim()` after the destructuring default, for the two
non-raising field shapes. -/
def normDesc : JsonField → String
  | .str d => jsTrim d
  | _ => ""

/-- Whether some stored row carries the given identifier. -/
def hasId (id : Nat) (l : List Row) : Bool :=
  l.any (fun r => r.id == id)

/-- A sample stored row. -/
def exRow : Row := ⟨1, "Buy milk", "", false, 10, 10⟩

/-- A second sample stored row, created later. -/
def exRowB : Row := ⟨2, "Write report", "draft", true, 20, 20⟩

/-- Sample state: store reachable, Redis client defined and live, key
currently absent. -/
def exStateLive : ServerState := ⟨[exRow, exRowB], 3, true, some ⟨.live, none⟩⟩

/-- Sample state: store reachable, Redis client defined but raising on
every operation (e.g. connection closed). -/
def exStateFailing : ServerState := ⟨[exRow, exRowB], 3, true, some ⟨.failing, none⟩⟩

/-- Sample state: store reachable, Redis client never created (the
`redisClient?.…` optional chaining short-circuits). -/
def exStateAbsent : ServerState := ⟨[exRow, exRowB], 3, true, none⟩

/-- A create title that is missing, empty, or whitespace-only after
trimming (the rejected shapes named by the spec). -/
def emptyTitle : JsonField → Bool
  | .absent => true
  | .str t => jsTrim t == ""
  | .null => false

theorem cacheDel_of_redisOk {rc : Option RedisClient} (hr : redisOk rc = true) :
    cacheDel rc = .ok (rc.map fun c => { c with entry := none }) := by
  cases rc with
  | none => rfl
  | some c =>
    cases hm : c.mode with
    | live => simp [cacheDel, hm]
    | failing => simp [redisOk, hm] at hr

theorem cacheDel_ok_shape {rc x : Option RedisClient} (h : cacheDel rc = .ok x) :
    x = none ∨ x = some ⟨.live, none⟩ := by
  cases rc with
  | none =>
    simp [cacheDel] at h
    exact Or.inl h.symm
  | some c =>
    cases hm : c.mode with
    | live =>
      simp [cacheDel, hm] at h
      right
      rw [← h]
    | failing => simp [cacheDel, hm] at h

theorem listTodos_fresh {s : ServerState} (hdb : s.dbUp = true)
    (h : s.redis = none ∨ s.redis = some ⟨.live, none⟩) :
    (listTodos s).1 = ⟨200, .jarr ((sortByCreatedDesc s.rows).map rowToJson)⟩ := by
  rcases h with h | h <;> simp [listTodos, cacheGet, cacheSetEx, h, hdb]

theorem jsTrim_empty : jsTrim "" = "" := rfl

theorem jsTrim_strips_ideographic_space :
    jsTrim "　Buy milk　" = "Buy milk" := by decide

theorem jsTrim_unicode_whitespace_only :
    jsTrim "　   " = "" := by decide

theorem createTodo_ok {t : String} {dfield : JsonField} {s : ServerState}
    {dbNow serverNow : Nat}
    (ht : ¬jsTrim t = "") (hd : dfield ≠ .null) (hdb : s.dbUp = true)
    (hr : redisOk s.redis = true) :
    createTodo ⟨.str t, dfield⟩ dbNow serverNow s =
      (⟨201, .jobj [("id", .jnum s.nextId), ("title", .jstr (jsTrim t)),
                    ("description", .jstr (normDesc dfield)),
                    ("completed", .jbool false), ("created_at", .jnum serverNow)]⟩,
       { rows := s.rows ++ [⟨s.nextId, jsTrim t, normDesc dfield, false, dbNow, dbNow⟩],
         nextId := s.nextId + 1, dbUp := s.dbUp,
         redis := s.redis.map fun c => { c with entry := none } }) := by
  cases dfield with
  | null => exact absurd rfl hd
  | absent =>
    simp [createTodo, ht, hdb, cacheDel_of_redisOk hr, normDesc, jsTrim_empty]
  | str d =>
    simp [createTodo, ht, hdb, cacheDel_of_redisOk hr, normDesc]

/-- Claim C1, counterexample: with the relational store reachable but the
Redis client raising on reads (e.g. a closed connection), `GET /todos`
does NOT fall back to the store: the raised cache error reaches the
handler's catch block and the request fails with the generic 500, so a
cache-layer failure can abort the read. -/
theorem c1_counterexample :
    exStateFailing.dbUp = true ∧
    (listTodos exStateFailing).1 = serverError ∧
    ¬(listTodos exStateFailing).1.status = 200 :=
  ⟨rfl, rfl, by decide⟩

/-- Claim C1, amended: only an absent cache client (the
`redisClient?.get` optional chaining seeing `undefined`) degrades
gracefully — the read then queries the store directly and returns the
full ordered set with 200; a cache read that raises an error makes the
whole list operation fail with the generic 500 even though the store is
reachable. -/
theorem c1_amended_cache_fallback (s : ServerState) (e : Option (List Row))
    (hdb : s.dbUp = true) :
    (listTodos { s with redis := none }).1 =
      ⟨200, .jarr ((sortByCreatedDesc s.rows).map rowToJson)⟩ ∧
    (listTodos { s with redis := some ⟨.failing, e⟩ }).1 = serverError := by
  constructor
  · exact listTodos_fresh (s := { s with redis := none }) hdb (Or.inl rfl)
  · simp [listTodos, cacheGet]

/-- Witness for the amended C1 at a concrete two-row state. -/
theorem c1_amended_witness :
    exStateAbsent.dbUp = true ∧
    ((listTodos { exStateAbsent with redis := none }).1 =
        ⟨200, .jarr ((sortByCreatedDesc exStateAbsent.rows).map rowToJson)⟩ ∧
     (listTodos { exStateAbsent with redis := some ⟨.failing, none⟩ }).1 =
        serverError) :=
  ⟨rfl, c1_amended_cache_fallback exStateAbsent none rfl⟩

/-- Claim C5: a create request whose title is missing, empty, or
whitespace-only after trimming is rejected with 400 (a client error,
distinct from the 500 server errors) and the server state — store rows
and cache alike — is completely unchanged.  This holds before any store
access, so it needs no assumption on store or cache health. -/
theorem c5_create_empty_title_rejected (body : CreateBody)
    (dbNow serverNow : Nat) (s : ServerState)
    (h : emptyTitle body.title = true) :
    createTodo body dbNow serverNow s = (⟨400, errJson "Title is required"⟩, s) := by
  cases hb : body.title with
  | absent => simp [createTodo, hb]
  | null => simp [emptyTitle, hb] at h
  | str t =>
    rw [hb] at h
    simp only [emptyTitle, beq_iff_eq] at h
    simp [createTodo, hb, h]

/-- Witness for C5: a title of only Unicode whitespace (U+3000, U+2003, NBSP, space) is rejected and the state is
unchanged. -/
theorem c5_witness :
    emptyTitle (JsonField.str "　   ") = true ∧
    createTodo ⟨.str "　   ", .absent⟩ 30 99 exStateLive =
      (⟨400, errJson "Title is required"⟩, exStateLive) :=
  ⟨by decide, c5_create_empty_title_rejected ⟨.str "　   ", .absent⟩ 30 99 exStateLive (by decide)⟩

/-- Claim C4: a create request with a title that is non-empty after
trimming (and a description that is a string or omitted), with the store
reachable and the cache not raising, inserts exactly one new row holding
the trimmed title, the trimmed description (empty string when the field
is omitted), completed = false and the store-clock timestamps, and
answers 201 with the newly assigned identifier and those normalized
values. -/
theorem c4_create_valid (t : String) (dfield : JsonField)
    (dbNow serverNow : Nat) (s : ServerState)
    (ht : ¬jsTrim t = "") (hd : dfield ≠ .null)
    (hdb : s.dbUp = true) (hr : redisOk s.redis = true) :
    (createTodo ⟨.str t, dfield⟩ dbNow serverNow s).1 =
      ⟨201, .jobj [("id", .jnum s.nextId), ("title", .jstr (jsTrim t)),
                   ("description", .jstr (normDesc dfield)),
                   ("completed", .jbool false), ("created_at", .jnum serverNow)]⟩ ∧
    (createTodo ⟨.str t, dfield⟩ dbNow serverNow s).2.rows =
      s.rows ++ [⟨s.nextId, jsTrim t, normDesc dfield, false, dbNow, dbNow⟩] := by
  rw [createTodo_ok ht hd hdb hr]
  exact ⟨rfl, rfl⟩

/-- Witness for C4: creating `"　Buy milk　"` with an omitted description
trims the title, defaults the description to the empty string, and
answers 201. -/
theorem c4_witness :
    (¬jsTrim "　Buy milk　" = "") ∧
    ((createTodo ⟨.str "　Buy milk　", .absent⟩ 30 99 exStateLive).1 =
       ⟨201, .jobj [("id", .jnum exStateLive.nextId),
                    ("title", .jstr (jsTrim "　Buy milk　")),
                    ("description", .jstr (normDesc .absent)),
                    ("completed", .jbool false), ("created_at", .jnum 99)]⟩ ∧
     (createTodo ⟨.str "　Buy milk　", .absent⟩ 30 99 exStateLive).2.rows =
       exStateLive.rows ++
         [⟨exStateLive.nextId, jsTrim "　Buy milk　", normDesc .absent, false, 30, 30⟩]) :=
  ⟨by decide,
   c4_create_valid "　Buy milk　" .absent 30 99 exStateLive (by decide) (by decide) rfl rfl⟩

/-- Claim C9: with a valid title, an explicit `null` description escapes
the destructuring default (which only covers an absent field), so
`description.trim()` raises a TypeError before the INSERT is attempted:
the response is the generic 500 and the state is unchanged — in contrast
to the omitted-description request, which yields 201. -/
theorem c9_null_description_500 (t : String) (dbNow serverNow : Nat)
    (s : ServerState) (ht : ¬jsTrim t = "") :
    createTodo ⟨.str t, .null⟩ dbNow serverNow s = (serverError, s) ∧
    (s.dbUp = true → redisOk s.redis = true →
      (createTodo ⟨.str t, .absent⟩ dbNow serverNow s).1.status = 201) := by
  constructor
  · simp [createTodo, ht]
  · intro hdb hr
    rw [createTodo_ok ht (by simp) hdb hr]

/-- Witness for C9: the same valid title yields 500 with a null
description and 201 with an omitted one. -/
theorem c9_witness :
    (¬jsTrim "　Buy milk" = "") ∧
    (createTodo ⟨.str "　Buy milk", .null⟩ 30 99 exStateLive = (serverError, exStateLive) ∧
     (exStateLive.dbUp = true → redisOk exStateLive.redis = true →
       (createTodo ⟨.str "　Buy milk", .absent⟩ 30 99 exStateLive).1.status = 201)) :=
  ⟨by decide, c9_null_description_500 "　Buy milk" 30 99 exStateLive (by decide)⟩

/-- Claim C10: the 201 create response body is built in the handler, not
read back from the store: its keys are exactly id, title, description,
completed, created_at — no updated_at — and its created_at carries the
server process clock (`new Date()`, here `serverNow`), while the stored
row carries the database clock (`CURRENT_TIMESTAMP`, here `dbNow`). -/
theorem c10_create_response_body (t : String) (dfield : JsonField)
    (dbNow serverNow : Nat) (s : ServerState)
    (ht : ¬jsTrim t = "") (hd : dfield ≠ .null)
    (hdb : s.dbUp = true) (hr : redisOk s.redis = true) :
    Json.objKeys (createTodo ⟨.str t, dfield⟩ dbNow serverNow s).1.body =
      ["id", "title", "description", "completed", "created_at"] ∧
    "updated_at" ∉ Json.objKeys (createTodo ⟨.str t, dfield⟩ dbNow serverNow s).1.body ∧
    (createTodo ⟨.str t, dfield⟩ dbNow serverNow s).1.body =
      .jobj [("id", .jnum s.nextId), ("title", .jstr (jsTrim t)),
             ("description", .jstr (normDesc dfield)), ("completed", .jbool false),
             ("created_at", .jnum serverNow)] ∧
    (createTodo ⟨.str t, dfield⟩ dbNow serverNow s).2.rows =
      s.rows ++ [⟨s.nextId, jsTrim t, normDesc dfield, false, dbNow, dbNow⟩] := by
  rw [createTodo_ok ht hd hdb hr]
  refine ⟨rfl, ?_, rfl, rfl⟩
  simp [Json.objKeys]

/-- Witness for C10 with distinct clocks: the body's created_at is the
server clock 99, the stored row's created_at is the store clock 30. -/
theorem c10_witness :
    (¬jsTrim "　Buy milk" = "") ∧
    (Json.objKeys (createTodo ⟨.str "　Buy milk", .absent⟩ 30 99 exStateLive).1.body =
       ["id", "title", "description", "completed", "created_at"] ∧
     "updated_at" ∉
       Json.objKeys (createTodo ⟨.str "　Buy milk", .absent⟩ 30 99 exStateLive).1.body ∧
     (createTodo ⟨.str "　Buy milk", .absent⟩ 30 99 exStateLive).1.body =
       .jobj [("id", .jnum exStateLive.nextId), ("title", .jstr (jsTrim "　Buy milk")),
              ("description", .jstr (normDesc .absent)), ("completed", .jbool false),
              ("created_at", .jnum 99)] ∧
     (createTodo ⟨.str "　Buy milk", .absent⟩ 30 99 exStateLive).2.rows =
       exStateLive.rows ++
         [⟨exStateLive.nextId, jsTrim "　Buy milk", normDesc .absent, false, 30, 30⟩]) :=
  ⟨by decide,
   c10_create_response_body "　Buy milk" .absent 30 99 exStateLive (by decide) (by decide) rfl rfl⟩

/-- Claim C6: an update or delete whose identifier matches no stored row
answers 404 and leaves the state untouched; the 404 comes from the
mutation's own affected-row count being zero (`result.affectedRows === 0`
on the UPDATE/DELETE itself — there is no pre-check SELECT in either
handler), which this theorem exposes as `affectedRows id s.rows = 0`. -/
theorem c6_not_found_via_affected_rows (id : Nat) (ub : UpdateBody)
    (dbNow : Nat) (s : ServerState)
    (hdb : s.dbUp = true) (h : hasId id s.rows = false) :
    affectedRows id s.rows = 0 ∧
    updateTodo id ub dbNow s = (⟨404, errJson "Todo not found"⟩, s) ∧
    deleteTodo id s = (⟨404, errJson "Todo not found"⟩, s) := by
  have haff : affectedRows id s.rows = 0 := by
    rw [affectedRows, List.length_eq_zero, List.filter_eq_nil_iff]
    intro a ha hpa
    rw [hasId] at h
    have hany : (s.rows.any fun r => r.id == id) = true :=
      List.any_eq_true.mpr ⟨a, ha, hpa⟩
    exact absurd hany (by simp [h])
  refine ⟨haff, ?_, ?_⟩ <;> simp [updateTodo, deleteTodo, hdb, haff]

/-- Witness for C6: id 99 matches neither stored row, so both mutations
answer 404 and change nothing. -/
theorem c6_witness :
    exStateLive.dbUp = true ∧ hasId 99 exStateLive.rows = false ∧
    (affectedRows 99 exStateLive.rows = 0 ∧
     updateTodo 99 ⟨"t", "d", true⟩ 40 exStateLive =
       (⟨404, errJson "Todo not found"⟩, exStateLive) ∧
     deleteTodo 99 exStateLive = (⟨404, errJson "Todo not found"⟩, exStateLive)) :=
  ⟨rfl, by decide, c6_not_found_via_affected_rows 99 ⟨"t", "d", true⟩ 40 exStateLive rfl (by decide)⟩

/-- Claim C7: an update on an existing identifier (store reachable, cache
not raising) answers 200 and writes the incoming title, description and
completed into the row exactly as received — no trimming, no emptiness
check — refreshing `updated_at` to the store clock while every row keeps
its identifier and `created_at`. -/
theorem c7_update_existing_verbatim (id : Nat) (ub : UpdateBody)
    (dbNow : Nat) (s : ServerState)
    (hdb : s.dbUp = true) (hr : redisOk s.redis = true)
    (h : hasId id s.rows = true) :
    (updateTodo id ub dbNow s).1 =
      ⟨200, .jobj [("message", .jstr "Todo updated successfully")]⟩ ∧
    (updateTodo id ub dbNow s).2.rows = s.rows.map (fun r =>
      if r.id == id then
        { r with title := ub.title, description := ub.description,
                 completed := ub.completed, updated_at := dbNow }
      else r) ∧
    (updateTodo id ub dbNow s).2.rows.map Row.id = s.rows.map Row.id ∧
    (updateTodo id ub dbNow s).2.rows.map Row.created_at =
      s.rows.map Row.created_at := by
  have haff : ¬affectedRows id s.rows = 0 := by
    rw [hasId, List.any_eq_true] at h
    obtain ⟨r, hr2, hp⟩ := h
    rw [affectedRows]
    intro h0
    rw [List.length_eq_zero, List.filter_eq_nil_iff] at h0
    exact h0 r hr2 hp
  refine ⟨?_, ?_, ?_, ?_⟩
  · simp [updateTodo, hdb, haff, cacheDel_of_redisOk hr]
  · simp [updateTodo, hdb, haff, cacheDel_of_redisOk hr]
  · simp only [updateTodo, hdb, if_true, haff, ite_false, cacheDel_of_redisOk hr,
               List.map_map]
    apply List.map_congr_left
    intro r hr2
    by_cases hc : (r.id == id) = true <;> simp [Function.comp, hc]
  · simp only [updateTodo, hdb, if_true, haff, ite_false, cacheDel_of_redisOk hr,
               List.map_map]
    apply List.map_congr_left
    intro r hr2
    by_cases hc : (r.id == id) = true <;> simp [Function.comp, hc]

/-- Witness for C7: updating row 1 with an untrimmed title stores it
verbatim, answers 200, and keeps ids and creation timestamps. -/
theorem c7_witness :
    exStateLive.dbUp = true ∧ redisOk exStateLive.redis = true ∧
    hasId 1 exStateLive.rows = true ∧
    ((updateTodo 1 ⟨" raw ", "desc", true⟩ 40 exStateLive).1 =
       ⟨200, .jobj [("message", .jstr "Todo updated successfully")]⟩ ∧
     (updateTodo 1 ⟨" raw ", "desc", true⟩ 40 exStateLive).2.rows =
       exStateLive.rows.map (fun r =>
         if r.id == 1 then
           { r with title := " raw ", description := "desc",
                    completed := true, updated_at := 40 }
         else r) ∧
     (updateTodo 1 ⟨" raw ", "desc", true⟩ 40 exStateLive).2.rows.map Row.id =
       exStateLive.rows.map Row.id ∧
     (updateTodo 1 ⟨" raw ", "desc", true⟩ 40 exStateLive).2.rows.map Row.created_at =
       exStateLive.rows.map Row.created_at) :=
  ⟨rfl, rfl, by decide,
   c7_update_existing_verbatim 1 ⟨" raw ", "desc", true⟩ 40 exStateLive rfl rfl (by decide)⟩

/-- Claim C8: with the store reachable, the cache not raising, and the
cache key either empty or holding the current ordered snapshot,
`GET /todos` answers 200 with every stored row ordered by creation time
most recent first (the result is a permutation of the stored rows,
sorted descending by `created_at`), it never changes the stored rows,
and a second read with no intervening write returns the identical
response from the identical state. -/
theorem c8_list_ordered_idempotent (s : ServerState)
    (hdb : s.dbUp = true) (hr : redisOk s.redis = true)
    (hcoh : cacheEntry s.redis = none ∨
            cacheEntry s.redis = some (sortByCreatedDesc s.rows)) :
    (listTodos s).1 = ⟨200, .jarr ((sortByCreatedDesc s.rows).map rowToJson)⟩ ∧
    List.Perm (sortByCreatedDesc s.rows) s.rows ∧
    List.Sorted createdDesc (sortByCreatedDesc s.rows) ∧
    (listTodos (listTodos s).2).1 = (listTodos s).1 ∧
    (listTodos (listTodos s).2).2 = (listTodos s).2 ∧
    (listTodos s).2.rows = s.rows := by
  obtain ⟨rows, n, dbUp, redis⟩ := s
  simp only at hdb hr hcoh ⊢
  subst hdb
  have hperm : List.Perm (sortByCreatedDesc rows) rows :=
    List.perm_insertionSort createdDesc rows
  have hsort : List.Sorted createdDesc (sortByCreatedDesc rows) :=
    List.sorted_insertionSort createdDesc rows
  cases redis with
  | none =>
    exact ⟨rfl, hperm, hsort, rfl, rfl, rfl⟩
  | some c =>
    obtain ⟨mode, entry⟩ := c
    cases mode with
    | failing => simp [redisOk] at hr
    | live =>
      cases entry with
      | none =>
        refine ⟨?_, hperm, hsort, ?_, ?_, ?_⟩ <;>
          simp [listTodos, cacheGet, cacheSetEx, cacheEntry]
      | some v =>
        rcases hcoh with hcoh | hcoh
        · simp [cacheEntry] at hcoh
        · simp only [cacheEntry, Option.some.injEq] at hcoh
          subst hcoh
          refine ⟨?_, hperm, hsort, ?_, ?_, ?_⟩ <;>
            simp [listTodos, cacheGet, cacheSetEx]

/-- Witness for C8 at a concrete live-cache state with an empty key. -/
theorem c8_witness :
    exStateLive.dbUp = true ∧ redisOk exStateLive.redis = true ∧
    (cacheEntry exStateLive.redis = none ∨
     cacheEntry exStateLive.redis = some (sortByCreatedDesc exStateLive.rows)) ∧
    ((listTodos exStateLive).1 =
       ⟨200, .jarr ((sortByCreatedDesc exStateLive.rows).map rowToJson)⟩ ∧
     List.Perm (sortByCreatedDesc exStateLive.rows) exStateLive.rows ∧
     List.Sorted createdDesc (sortByCreatedDesc exStateLive.rows) ∧
     (listTodos (listTodos exStateLive).2).1 = (listTodos exStateLive).1 ∧
     (listTodos (listTodos exStateLive).2).2 = (listTodos exStateLive).2 ∧
     (listTodos exStateLive).2.rows = exStateLive.rows) :=
  ⟨rfl, rfl, Or.inl rfl,
   c8_list_ordered_idempotent exStateLive rfl rfl (Or.inl rfl)⟩

theorem applyMutation_success_shape (m : Mutation) (s : ServerState)
    (h : (applyMutation m s).1.status = 201 ∨ (applyMutation m s).1.status = 200) :
    ((applyMutation m s).2.redis = none ∨
     (applyMutation m s).2.redis = some ⟨.live, none⟩) ∧
    (applyMutation m s).2.dbUp = true := by
  cases m with
  | create body dbNow serverNow =>
    obtain ⟨title, dfield⟩ := body
    cases title with
    | absent => simp [applyMutation, createTodo, serverError] at h
    | null => simp [applyMutation, createTodo, serverError] at h
    | str t =>
      by_cases ht : jsTrim t = ""
      · simp [applyMutation, createTodo, ht, serverError] at h
      · by_cases hdb : s.dbUp = true
        · cases dfield with
          | null => simp [applyMutation, createTodo, ht, serverError] at h
          | absent =>
            cases hdel : cacheDel s.redis with
            | error e => simp [applyMutation, createTodo, ht, hdb, hdel, serverError] at h
            | ok redis' =>
              have hshape := cacheDel_ok_shape hdel
              constructor
              · simpa [applyMutation, createTodo, ht, hdb, hdel] using hshape
              · simp [applyMutation, createTodo, ht, hdb, hdel]
          | str d =>
            cases hdel : cacheDel s.redis with
            | error e => simp [applyMutation, createTodo, ht, hdb, hdel, serverError] at h
            | ok redis' =>
              have hshape := cacheDel_ok_shape hdel
              constructor
              · simpa [applyMutation, createTodo, ht, hdb, hdel] using hshape
              · simp [applyMutation, createTodo, ht, hdb, hdel]
        · cases dfield with
          | null => simp [applyMutation, createTodo, ht, serverError] at h
          | absent => simp [applyMutation, createTodo, ht, hdb, serverError] at h
          | str d => simp [applyMutation, createTodo, ht, hdb, serverError] at h
  | update id ub dbNow =>
    by_cases hdb : s.dbUp = true
    · by_cases haff : affectedRows id s.rows = 0
      · simp [applyMutation, updateTodo, hdb, haff, serverError] at h
      · cases hdel : cacheDel s.redis with
        | error e => simp [applyMutation, updateTodo, hdb, haff, hdel, serverError] at h
        | ok redis' =>
          have hshape := cacheDel_ok_shape hdel
          constructor
          · simpa [applyMutation, updateTodo, hdb, haff, hdel] using hshape
          · simp [applyMutation, updateTodo, hdb, haff, hdel]
    · simp [applyMutation, updateTodo, hdb, serverError] at h
  | del id =>
    by_cases hdb : s.dbUp = true
    · by_cases haff : affectedRows id s.rows = 0
      · simp [applyMutation, deleteTodo, hdb, haff, serverError] at h
      · cases hdel : cacheDel s.redis with
        | error e => simp [applyMutation, deleteTodo, hdb, haff, hdel, serverError] at h
        | ok redis' =>
          have hshape := cacheDel_ok_shape hdel
          constructor
          · simpa [applyMutation, deleteTodo, hdb, haff, hdel] using hshape
          · simp [applyMutation, deleteTodo, hdb, haff, hdel]
    · simp [applyMutation, deleteTodo, hdb, serverError] at h

/-- Claim C2: whenever a create, update, or delete answers its success
status (201 or 200), the resulting cache no longer holds the `todos`
key (the `DEL` ran before the response), so the next list read misses
the cache, recomputes from the relational store, and returns exactly the
post-mutation rows in creation order. -/
theorem c2_mutation_invalidates_cache (m : Mutation) (s : ServerState)
    (h : (applyMutation m s).1.status = 201 ∨ (applyMutation m s).1.status = 200) :
    cacheEntry (applyMutation m s).2.redis = none ∧
    (listTodos (applyMutation m s).2).1 =
      ⟨200, .jarr ((sortByCreatedDesc (applyMutation m s).2.rows).map rowToJson)⟩ := by
  obtain ⟨hshape, hdbu⟩ := applyMutation_success_shape m s h
  constructor
  · rcases hshape with h1 | h1 <;> simp [h1, cacheEntry]
  · exact listTodos_fresh hdbu hshape

/-- Witness for C2: deleting row 2 succeeds with 200, empties the cache
key, and the next list read returns the remaining rows from the store. -/
theorem c2_witness :
    ((applyMutation (.del 2) exStateLive).1.status = 201 ∨
     (applyMutation (.del 2) exStateLive).1.status = 200) ∧
    (cacheEntry (applyMutation (.del 2) exStateLive).2.redis = none ∧
     (listTodos (applyMutation (.del 2) exStateLive).2).1 =
       ⟨200, .jarr ((sortByCreatedDesc (applyMutation (.del 2) exStateLive).2.rows).map
                      rowToJson)⟩) :=
  ⟨Or.inr (by decide), c2_mutation_invalidates_cache (.del 2) exStateLive (Or.inr (by decide))⟩

/-- Claim C3, counterexample: when the cache-delete call raises (the
defined Redis client is failing), a create with a valid title does NOT
return its success response: the raised error reaches the catch block
and the response is the generic 500 — even though the row was already
inserted.  So an invalidation failure IS distinguished from success. -/
theorem c3_counterexample :
    (createTodo ⟨.str "　Buy milk", .absent⟩ 30 99 exStateFailing).1.status = 500 ∧
    ¬(createTodo ⟨.str "　Buy milk", .absent⟩ 30 99 exStateFailing).1.status = 201 ∧
    (createTodo ⟨.str "　Buy milk", .absent⟩ 30 99 exStateFailing).2.rows.length =
      exStateFailing.rows.length + 1 := by
  refine ⟨by decide, by decide, by decide⟩

/-- Claim C3, amended: only an absent cache client makes invalidation
silently indistinguishable from success — the mutation then returns
exactly the response it returns with a healthy cache; but when the
cache-delete call itself raises, every mutating operation that would
otherwise have succeeded returns the generic 500 instead of its success
response, with the row mutation nevertheless already applied (same
resulting rows). -/
theorem c3_cache_invalidation_amended (m : Mutation) (s : ServerState)
    (e e' : Option (List Row))
    (h : (applyMutation m { s with redis := some ⟨.live, e⟩ }).1.status = 201 ∨
         (applyMutation m { s with redis := some ⟨.live, e⟩ }).1.status = 200) :
    (applyMutation m { s with redis := some ⟨.failing, e'⟩ }).1 = serverError ∧
    (applyMutation m { s with redis := some ⟨.failing, e'⟩ }).2.rows =
      (applyMutation m { s with redis := some ⟨.live, e⟩ }).2.rows ∧
    (applyMutation m { s with redis := none }).1 =
      (applyMutation m { s with redis := some ⟨.live, e⟩ }).1 := by
  cases m with
  | create body dbNow serverNow =>
    obtain ⟨title, dfield⟩ := body
    cases title with
    | absent => simp [applyMutation, createTodo] at h
    | null => simp [applyMutation, createTodo] at h
    | str t =>
      by_cases ht : jsTrim t = ""
      · simp [applyMutation, createTodo, ht] at h
      · by_cases hdb : s.dbUp = true
        · cases dfield with
          | null => simp [applyMutation, createTodo, ht, serverError] at h
          | absent =>
            refine ⟨?_, ?_, ?_⟩ <;>
              simp [applyMutation, createTodo, ht, hdb, cacheDel]
          | str d =>
            refine ⟨?_, ?_, ?_⟩ <;>
              simp [applyMutation, createTodo, ht, hdb, cacheDel]
        · cases dfield with
          | null => simp [applyMutation, createTodo, ht, serverError] at h
          | absent => simp [applyMutation, createTodo, ht, hdb, serverError] at h
          | str d => simp [applyMutation, createTodo, ht, hdb, serverError] at h
  | update id ub dbNow =>
    by_cases hdb : s.dbUp = true
    · by_cases haff : affectedRows id s.rows = 0
      · simp [applyMutation, updateTodo, hdb, haff] at h
      · refine ⟨?_, ?_, ?_⟩ <;>
          simp [applyMutation, updateTodo, hdb, haff, cacheDel]
    · simp [applyMutation, updateTodo, hdb, serverError] at h
  | del id =>
    by_cases hdb : s.dbUp = true
    · by_cases haff : affectedRows id s.rows = 0
      · simp [applyMutation, deleteTodo, hdb, haff] at h
      · refine ⟨?_, ?_, ?_⟩ <;>
          simp [applyMutation, deleteTodo, hdb, haff, cacheDel]
    · simp [applyMutation, deleteTodo, hdb, serverError] at h

/-- Witness for the amended C3: deleting row 2 succeeds (200) with a
live cache, returns 500 with a raising cache while removing the row all
the same, and behaves exactly like the live-cache success when the
client is absent. -/
theorem c3_amended_witness :
    ((applyMutation (.del 2) { exStateLive with redis := some ⟨.live, none⟩ }).1.status = 201 ∨
     (applyMutation (.del 2) { exStateLive with redis := some ⟨.live, none⟩ }).1.status = 200) ∧
    ((applyMutation (.del 2) { exStateLive with redis := some ⟨.failing, none⟩ }).1 =
       serverError ∧
     (applyMutation (.del 2) { exStateLive with redis := some ⟨.failing, none⟩ }).2.rows =
       (applyMutation (.del 2) { exStateLive with redis := some ⟨.live, none⟩ }).2.rows ∧
     (applyMutation (.del 2) { exStateLive with redis := none }).1 =
       (applyMutation (.del 2) { exStateLive with redis := some ⟨.live, none⟩ }).1) :=
  ⟨Or.inr (by decide),
   c3_cache_invalidation_amended (.del 2) exStateLive none none (Or.inr (by decide))⟩
